import Mathlib

/-!
# AFKPlugin: idle monitor and console command

A shallow embedding of `src/plugin.c` of the AFKPlugin TeamSpeak 3 plugin.

* The host function table `ts3Functions` is modelled by a list of live server
  connections (`World.servers`) and the chat tab (`World.tab`).
* The file-scope `static uint64 max_idle_time` is the field `World.max_idle_time`.
* `uint64` values are natural numbers, reduced modulo `2 ^ 64` where the C code
  computes with them; `int` values are integers wrapped to 32 bits.
* The endless `for (;;)` of `idle_loop` is run over a finite list of idle-time
  samples, one `get_idle_time()` result per iteration.
* `printf` output is not modelled; `printMessageToCurrentTab` output is.
* The embedding follows the code compiled without `_WIN32`, the build whose
  `ts3plugin_init` starts the `idle_loop` thread and whose `idle_time` command stores
  the threshold. Locking of `idle_time_mutex` is not modelled.
-/

namespace AFKPlugin

/-! ## Constants -/

/-- The command buffer size, `#define COMMAND_BUFSIZE 128`. -/
def COMMAND_BUFSIZE : Nat := 128

/-- The poll resolution in seconds, `const uint64 ACTIVITY_CHECK_RESOLUTION = 5`. -/
def ACTIVITY_CHECK_RESOLUTION : Nat := 5

/-- The least threshold the command accepts, `const uint64 MIN_IDLE_TIME = 15`. -/
def MIN_IDLE_TIME : Nat := 15

/-- The number of values of the C type `uint64`. -/
def UINT64_SIZE : Nat := 2 ^ 64

/-- Addition of two `uint64` values. -/
def add64 (a b : Nat) : Nat := (a + b) % UINT64_SIZE

/-- Subtraction of two `uint64` values. -/
def sub64 (a b : Nat) : Nat := (a % UINT64_SIZE + UINT64_SIZE - b % UINT64_SIZE) % UINT64_SIZE

/-- The conversion `(uint64)x` of an `int`. -/
def toUint64 (x : Int) : Nat := (x % (UINT64_SIZE : Int)).toNat

/-! ## The host: connections and their away status -/

/-- Modelled from the spec: the enum `AwayStatus` of the TeamSpeak header
`public_definitions.h`, which is not among the repository's sources. The spec's
presence state has the two values ACTIVE and AWAY; `AWAY_NONE` (integer value 0)
is ACTIVE and `AWAY_ZZZ` (integer value 1) is AWAY. -/
inductive AwayStatus where
  | AWAY_NONE
  | AWAY_ZZZ
deriving DecidableEq, Repr

open AwayStatus

/-- The integer value of an `AwayStatus` constant, as C converts it to `int` or `size_t`. -/
def AwayStatus.toNat : AwayStatus → Nat
  | AWAY_NONE => 0
  | AWAY_ZZZ => 1

/-- The C expression `!x` for `x` the `int` value of an away status, converted back to the
enum by the call `set_away_status(!get_away_status())`. -/
def AwayStatus.lnot : AwayStatus → AwayStatus
  | AWAY_NONE => AWAY_ZZZ
  | AWAY_ZZZ => AWAY_NONE

/-- The values of `enum idle_status { ACTIVE = 0, IDLE }`; the loop variable `away_status`
has type `size_t`. -/
def ACTIVE : Nat := 0

/-- The second value of `enum idle_status`. -/
def IDLE : Nat := 1

/-- The host error code for success. -/
def ERROR_ok : Nat := 0

/-- A host error code different from `ERROR_ok`. -/
def ERROR_undefined : Nat := 1

/-- One live server connection of the host: the value of its `CLIENT_AWAY` self variable
and whether the host applies self-variable updates on it. -/
structure Connection where
  away : AwayStatus
  accepts_updates : Bool
deriving DecidableEq, Repr

/-- The state the plugin works on: its own static `max_idle_time`, the host's connections
(in the order of `getServerConnectionHandlerList`), the messages printed to the current
tab, and the record of every `set_away_status` invocation with its argument. -/
structure World where
  max_idle_time : Nat
  servers : List Connection
  tab : List String
  away_log : List AwayStatus
deriving DecidableEq, Repr

/-- The host call `setClientSelfVariableAsInt(handle, CLIENT_AWAY, status)`: the new
connection state and the error code. -/
def setClientSelfVariableAsInt (c : Connection) (status : AwayStatus) : Connection × Nat :=
  if c.accepts_updates then ({ c with away := status }, ERROR_ok) else (c, ERROR_undefined)

/-- The host call `flushClientSelfUpdates(handle, returnCode)`. -/
def flushClientSelfUpdates (c : Connection) : Connection × Nat :=
  if c.accepts_updates then (c, ERROR_ok) else (c, ERROR_undefined)

/-- The host call `getClientSelfVariableAsInt(handle, CLIENT_AWAY, &result)`; reading the
self variable of a listed connection succeeds. -/
def getClientSelfVariableAsInt (c : Connection) : AwayStatus := c.away

/-- The host call `printMessageToCurrentTab(msg)`. -/
def printMessageToCurrentTab (w : World) (msg : String) : World :=
  { w with tab := w.tab ++ [msg] }

/-- The function `set_away_status`: for every connection set `CLIENT_AWAY` and flush; both
error codes are dropped, and the function returns 0. -/
def set_away_status (w : World) (status : AwayStatus) : World × Int :=
  let servers := w.servers.map
    (fun c => (flushClientSelfUpdates (setClientSelfVariableAsInt c status).1).1)
  ({ w with servers := servers, away_log := w.away_log ++ [status] }, 0)

/-- The loop of `get_away_status` over the connection list: return `AWAY_NONE` at the first
connection whose `CLIENT_AWAY` is `AWAY_NONE`, and `AWAY_ZZZ` after the last one. -/
def get_away_status_loop : List Connection → AwayStatus
  | [] => AWAY_ZZZ
  | c :: rest =>
    if getClientSelfVariableAsInt c = AWAY_NONE then AWAY_NONE else get_away_status_loop rest

/-- The function `get_away_status`. -/
def get_away_status (w : World) : AwayStatus := get_away_status_loop w.servers

/-- The function `help`: two lines on the current tab. -/
def help (w : World) : World :=
  printMessageToCurrentTab (printMessageToCurrentTab w "AFKPlugin help:")
    "/afk idle_time [seconds] #gets or sets the max idle time parameter"

/-! ## The console command -/

/-- The characters of a C string: those before the first NUL. Every `Char` stands for one
`char` of the C string. -/
def c_str (s : String) : List Char := s.data.takeWhile (fun c => c.toNat ≠ 0)

/-- The content of `buf` after `_strcpy(buf, COMMAND_BUFSIZE, command)`, which is
`strncpy(buf, command, COMMAND_BUFSIZE-1)` followed by `buf[COMMAND_BUFSIZE-1] = 0`. -/
def strcpy_buf (command : String) : List Char := (c_str command).take (COMMAND_BUFSIZE - 1)

/-- The tokens that `strtok(buf, " ")` and the following `strtok(NULL, " ")` calls return
before the first NULL: the maximal runs of characters other than the space. The second
argument collects the token being read, last character first. -/
def strtok_all_aux : List Char → List Char → List (List Char)
  | [], tok => if tok = [] then [] else [tok.reverse]
  | c :: cs, tok =>
    if c = ' ' then
      if tok = [] then strtok_all_aux cs [] else tok.reverse :: strtok_all_aux cs []
    else strtok_all_aux cs (c :: tok)

/-- All tokens of a buffer, in order. -/
def strtok_all (buf : List Char) : List (List Char) := strtok_all_aux buf []

/-- The C library predicate `isspace` in the C locale. -/
def isspace (c : Char) : Bool := c.toNat = 32 || (9 ≤ c.toNat && c.toNat ≤ 13)

/-- The value of the leading decimal digits of a string, after the digits read so far. -/
def strtol_digits : Nat → List Char → Nat
  | acc, [] => acc
  | acc, c :: cs => if c.isDigit then strtol_digits (10 * acc + (c.toNat - 48)) cs else acc

/-- The greatest value of the C type `long` (64 bits). -/
def LONG_MAX : Int := 2 ^ 63 - 1

/-- The least value of the C type `long` (64 bits). -/
def LONG_MIN : Int := -(2 ^ 63)

/-- The C library call `strtol(s, NULL, 10)`: white space, an optional sign, decimal digits;
the value is clamped to the range of `long`. -/
def strtol (s : List Char) : Int :=
  match s.dropWhile isspace with
  | [] => 0
  | c :: cs =>
    if c = '-' then max LONG_MIN (-(strtol_digits 0 cs : Int))
    else if c = '+' then min LONG_MAX (strtol_digits 0 cs : Int)
    else min LONG_MAX (strtol_digits 0 (c :: cs) : Int)

/-- The conversion `(int)x` of a `long` to the 32-bit `int`. -/
def toInt32 (x : Int) : Int := (x + 2 ^ 31) % 2 ^ 32 - 2 ^ 31

/-- The C library call `atoi(s)`, which is `(int)strtol(s, NULL, 10)`. -/
def atoi (s : List Char) : Int := toInt32 (strtol s)

/-- The local `enum { CMD_NONE = 0, CMD_IDLE_TIME, CMD_SET_AWAY }` of
`ts3plugin_processCommand`. -/
inductive Cmd where
  | CMD_NONE
  | CMD_IDLE_TIME
  | CMD_SET_AWAY
deriving DecidableEq, Repr

open Cmd

/-- The locals of `ts3plugin_processCommand` that the token loop writes: `cmd`, `param1`,
`param2` (`none` is the NULL pointer) and the token counter `i`. -/
structure Parse where
  cmd : Cmd
  param1 : Option (List Char)
  param2 : Option (List Char)
  i : Nat
deriving DecidableEq, Repr

/-- The body of the `while(s != NULL)` loop for the token `s`. -/
def parse_token (p : Parse) (s : List Char) : Parse :=
  let q : Parse :=
    if p.i = 0 then
      if s = "idle_time".data then { p with cmd := CMD_IDLE_TIME }
      else if s = "set_away".data then { p with cmd := CMD_SET_AWAY }
      else p
    else if p.i = 1 then { p with param1 := some s }
    else { p with param2 := some s }
  { q with i := q.i + 1 }

/-- The locals after the token loop of `ts3plugin_processCommand`. -/
def parse_command (command : String) : Parse :=
  (strtok_all (strcpy_buf command)).foldl parse_token
    { cmd := CMD_NONE, param1 := none, param2 := none, i := 0 }

/-- The statements under `case CMD_IDLE_TIME:` up to the `break`, in the build without
`_WIN32` (the build whose `ts3plugin_init` starts `idle_loop`). -/
def case_CMD_IDLE_TIME (w : World) (param1 : Option (List Char)) : World :=
  match param1 with
  | some a =>
    let idle_time := toUint64 (atoi a)
    if idle_time < MIN_IDLE_TIME then
      printMessageToCurrentTab w "idle_time below minimum threshold"
    else
      { w with max_idle_time := idle_time }
  | none =>
    printMessageToCurrentTab w ("max idle time: " ++ toString w.max_idle_time ++ "\n")

set_option linter.unusedVariables false in
/-- The function `ts3plugin_processCommand`: the world afterwards and the return value.
`case CMD_NONE:` has no `break` and runs on into `case CMD_IDLE_TIME:`. -/
def ts3plugin_processCommand (w : World) (serverConnectionHandlerID : Nat)
    (command : String) : World × Int :=
  let p := parse_command command
  match p.cmd with
  | CMD_NONE => (case_CMD_IDLE_TIME (help w) p.param1, 0)
  | CMD_IDLE_TIME => (case_CMD_IDLE_TIME w p.param1, 0)
  | CMD_SET_AWAY => ((set_away_status w (get_away_status w).lnot).1, 0)

/-- The world when the plugin is loaded: `max_idle_time` has its initialiser 600, nothing
has been printed and `set_away_status` has not been called. -/
def initial_world (servers : List Connection) : World :=
  { max_idle_time := 600, servers := servers, tab := [], away_log := [] }

/-! ## The poll loop -/

/-- What one iteration of the `for (;;)` loop of `idle_loop` leaves behind: the world, the
loop variable `away_status`, and the value of the `uint64` local `sleep_time` when it is
printed and handed to `sleep` (the computed sleep duration). -/
structure Cycle where
  world : World
  away_status : Nat
  sleep_time : Nat
deriving DecidableEq, Repr

/-- The number of values of the C type `unsigned int`, the parameter type of `sleep`. -/
def UINT_SIZE : Nat := 2 ^ 32

/-- The argument that `sleep(sleep_time)` receives: the `uint64` local converted to
`unsigned int`. -/
def slept_seconds (c : Cycle) : Nat := c.sleep_time % UINT_SIZE

/-- One iteration of the loop of `idle_loop` with `idle_time` the result of
`get_idle_time()`. At the top of every iteration `sleep_time` is
`ACTIVITY_CHECK_RESOLUTION` (initialised before the loop, reset at the end of the body). -/
def idle_cycle (w : World) (away_status idle_time : Nat) : Cycle :=
  let sleep_time := ACTIVITY_CHECK_RESOLUTION
  if idle_time > w.max_idle_time then
    if away_status = ACTIVE then
      { world := (set_away_status w AWAY_ZZZ).1, away_status := IDLE, sleep_time := sleep_time }
    else
      { world := w, away_status := away_status, sleep_time := sleep_time }
  else
    let sleep_time := add64 sleep_time (sub64 w.max_idle_time idle_time)
    if away_status = IDLE then
      { world := (set_away_status w AWAY_NONE).1, away_status := ACTIVE, sleep_time := sleep_time }
    else
      { world := w, away_status := away_status, sleep_time := sleep_time }

/-- The loop of `idle_loop` run on the idle-time samples of its first iterations, from a
given value of `away_status`: the world and `away_status` after the last of them. -/
def idle_loop_from (w : World) (away_status : Nat) : List Nat → World × Nat
  | [] => (w, away_status)
  | idle_time :: rest =>
    let c := idle_cycle w away_status idle_time
    idle_loop_from c.world c.away_status rest

/-- The function `idle_loop`: `away_status` starts as `get_away_status()`. -/
def idle_loop (w : World) (samples : List Nat) : World × Nat :=
  idle_loop_from w (get_away_status w).toNat samples

/-! ## Reachable worlds -/

/-- The worlds the plugin can be in: the world at load time, and every world reached from
a reachable one by a console command, by one iteration of the poll loop, or by the host
changing its connections. -/
inductive Reachable : World → Prop where
  | init (servers : List Connection) : Reachable (initial_world servers)
  | command (w : World) (serverConnectionHandlerID : Nat) (command : String) :
      Reachable w → Reachable (ts3plugin_processCommand w serverConnectionHandlerID command).1
  | cycle (w : World) (away_status idle_time : Nat) :
      Reachable w → Reachable (idle_cycle w away_status idle_time).world
  | host (w : World) (servers : List Connection) :
      Reachable w → Reachable { w with servers := servers }

/-! ## Lemmas on the presence gateway -/

theorem get_away_status_loop_none (l : List Connection) :
    get_away_status_loop l = AWAY_NONE ↔ ∃ c ∈ l, c.away = AWAY_NONE := by
  induction l with
  | nil => simp [get_away_status_loop]
  | cons c rest ih =>
    by_cases hc : c.away = AWAY_NONE
    · simp [get_away_status_loop, getClientSelfVariableAsInt, hc]
    · simp [get_away_status_loop, getClientSelfVariableAsInt, hc, ih]

theorem get_away_status_loop_zzz (l : List Connection) :
    get_away_status_loop l = AWAY_ZZZ ↔ ∀ c ∈ l, c.away = AWAY_ZZZ := by
  induction l with
  | nil => simp [get_away_status_loop]
  | cons c rest ih =>
    cases hc : c.away with
    | AWAY_NONE => simp [get_away_status_loop, getClientSelfVariableAsInt, hc]
    | AWAY_ZZZ => simp [get_away_status_loop, getClientSelfVariableAsInt, hc, ih]

theorem set_away_status_log (w : World) (status : AwayStatus) :
    (set_away_status w status).1.away_log = w.away_log ++ [status] := rfl

theorem set_away_status_max (w : World) (status : AwayStatus) :
    (set_away_status w status).1.max_idle_time = w.max_idle_time := rfl

/-! ## Lemmas on one poll cycle -/

theorem idle_cycle_above_active (w : World) (idle : Nat) (h : w.max_idle_time < idle) :
    idle_cycle w ACTIVE idle
      = { world := (set_away_status w AWAY_ZZZ).1, away_status := IDLE,
          sleep_time := ACTIVITY_CHECK_RESOLUTION } := by
  simp [idle_cycle, h]

theorem idle_cycle_above_other (w : World) (s idle : Nat) (h : w.max_idle_time < idle)
    (hs : s ≠ ACTIVE) :
    idle_cycle w s idle
      = { world := w, away_status := s, sleep_time := ACTIVITY_CHECK_RESOLUTION } := by
  simp [idle_cycle, h, hs]

theorem idle_cycle_below_idle (w : World) (idle : Nat) (h : idle ≤ w.max_idle_time) :
    idle_cycle w IDLE idle
      = { world := (set_away_status w AWAY_NONE).1, away_status := ACTIVE,
          sleep_time := add64 ACTIVITY_CHECK_RESOLUTION (sub64 w.max_idle_time idle) } := by
  simp [idle_cycle, Nat.not_lt.mpr h]

theorem idle_cycle_below_other (w : World) (s idle : Nat) (h : idle ≤ w.max_idle_time)
    (hs : s ≠ IDLE) :
    idle_cycle w s idle
      = { world := w, away_status := s,
          sleep_time := add64 ACTIVITY_CHECK_RESOLUTION (sub64 w.max_idle_time idle) } := by
  simp [idle_cycle, Nat.not_lt.mpr h, hs]

theorem idle_cycle_max (w : World) (s idle : Nat) :
    (idle_cycle w s idle).world.max_idle_time = w.max_idle_time := by
  unfold idle_cycle
  split_ifs <;> rfl

theorem add64_sub64_of_le (r t i : Nat) (h : i ≤ t) :
    add64 r (sub64 t i) = (r + (t - i)) % UINT64_SIZE := by
  have hpos : 0 < UINT64_SIZE := by unfold UINT64_SIZE; positivity
  have hi : i % UINT64_SIZE < UINT64_SIZE := Nat.mod_lt _ hpos
  have hsub : sub64 t i = (t - i) % UINT64_SIZE := by
    unfold sub64
    have e1 : (t % UINT64_SIZE + UINT64_SIZE - i % UINT64_SIZE) % UINT64_SIZE
        = (t + (UINT64_SIZE - i % UINT64_SIZE)) % UINT64_SIZE := by
      rw [Nat.add_sub_assoc (Nat.le_of_lt hi), Nat.add_mod, Nat.mod_mod, ← Nat.add_mod]
    have e2 : (t + (UINT64_SIZE - i % UINT64_SIZE)) % UINT64_SIZE = (t - i) % UINT64_SIZE := by
      have hdiv := Nat.div_add_mod i UINT64_SIZE
      have : t + (UINT64_SIZE - i % UINT64_SIZE)
          = (t - i) + UINT64_SIZE * (i / UINT64_SIZE + 1) := by
        have : UINT64_SIZE * (i / UINT64_SIZE + 1)
            = UINT64_SIZE * (i / UINT64_SIZE) + UINT64_SIZE := by ring
        omega
      rw [this, Nat.add_mul_mod_self_left]
    rw [e1, e2]
  rw [hsub]
  unfold add64
  rw [Nat.add_mod, Nat.mod_mod, ← Nat.add_mod]

/-- With a threshold below `2 ^ 64 - 5`, as every threshold stored from a non-negative
argument is, the sleep duration of a cycle is at least the poll resolution. -/
theorem idle_cycle_sleep_time_ge (w : World) (s idle : Nat)
    (h : w.max_idle_time + ACTIVITY_CHECK_RESOLUTION < UINT64_SIZE) :
    ACTIVITY_CHECK_RESOLUTION ≤ (idle_cycle w s idle).sleep_time := by
  by_cases hi : w.max_idle_time < idle
  · by_cases hs : s = ACTIVE
    · subst hs; rw [idle_cycle_above_active w idle hi]
    · rw [idle_cycle_above_other w s idle hi hs]
  · have hle : idle ≤ w.max_idle_time := Nat.not_lt.mp hi
    have hlt : ACTIVITY_CHECK_RESOLUTION + (w.max_idle_time - idle) < UINT64_SIZE := by omega
    have hsleep : (idle_cycle w s idle).sleep_time
        = ACTIVITY_CHECK_RESOLUTION + (w.max_idle_time - idle) := by
      rw [← Nat.mod_eq_of_lt hlt, ← add64_sub64_of_le _ _ _ hle]
      by_cases hs : s = IDLE
      · subst hs; rw [idle_cycle_below_idle w idle hle]
      · rw [idle_cycle_below_other w s idle hle hs]
    rw [hsleep]
    exact Nat.le_add_right _ _

/-! ## Lemmas on the poll loop -/

theorem idle_loop_from_append (w : World) (s : Nat) (xs ys : List Nat) :
    idle_loop_from w s (xs ++ ys)
      = idle_loop_from (idle_loop_from w s xs).1 (idle_loop_from w s xs).2 ys := by
  induction xs generalizing w s with
  | nil => rfl
  | cons x rest ih => simp only [List.cons_append, idle_loop_from]; exact ih _ _

theorem idle_loop_from_max (w : World) (s : Nat) (xs : List Nat) :
    (idle_loop_from w s xs).1.max_idle_time = w.max_idle_time := by
  induction xs generalizing w s with
  | nil => rfl
  | cons x rest ih => simp only [idle_loop_from]; rw [ih, idle_cycle_max]

/-- While every sample is above the threshold and `away_status` is `IDLE`, the loop changes
nothing. -/
theorem idle_loop_from_idle_above (w : World) (xs : List Nat)
    (h : ∀ y ∈ xs, w.max_idle_time < y) :
    idle_loop_from w IDLE xs = (w, IDLE) := by
  induction xs with
  | nil => rfl
  | cons x rest ih =>
    have hx : w.max_idle_time < x := h x (List.mem_cons_self _ _)
    have hne : IDLE ≠ ACTIVE := by decide
    simp only [idle_loop_from, idle_cycle_above_other w IDLE x hx hne]
    exact ih (fun y hy => h y (List.mem_cons_of_mem _ hy))

/-- While every sample is at most the threshold and `away_status` is `ACTIVE`, the loop
changes nothing. -/
theorem idle_loop_from_active_below (w : World) (xs : List Nat)
    (h : ∀ y ∈ xs, y ≤ w.max_idle_time) :
    idle_loop_from w ACTIVE xs = (w, ACTIVE) := by
  induction xs with
  | nil => rfl
  | cons x rest ih =>
    have hx : x ≤ w.max_idle_time := h x (List.mem_cons_self _ _)
    have hne : ACTIVE ≠ IDLE := by decide
    simp only [idle_loop_from, idle_cycle_below_other w ACTIVE x hx hne]
    exact ih (fun y hy => h y (List.mem_cons_of_mem _ hy))

/-- A run of samples above the threshold that starts in `ACTIVE` makes the one call
`set_away_status(AWAY_ZZZ)`, in its first cycle. -/
theorem idle_loop_from_active_above (w : World) (x : Nat) (xs : List Nat)
    (h : ∀ y ∈ x :: xs, w.max_idle_time < y) :
    idle_loop_from w ACTIVE (x :: xs) = ((set_away_status w AWAY_ZZZ).1, IDLE) := by
  have hx : w.max_idle_time < x := h x (List.mem_cons_self _ _)
  simp only [idle_loop_from, idle_cycle_above_active w x hx]
  exact idle_loop_from_idle_above _ xs (fun y hy => h y (List.mem_cons_of_mem _ hy))

/-! ## Lemmas on the console command -/

theorem toInt32_range (x : Int) : -(2 ^ 31) ≤ toInt32 x ∧ toInt32 x < 2 ^ 31 := by
  unfold toInt32
  have h1 : 0 ≤ (x + 2 ^ 31) % 2 ^ 32 := Int.emod_nonneg _ (by norm_num)
  have h2 : (x + 2 ^ 31) % 2 ^ 32 < 2 ^ 32 := Int.emod_lt_of_pos _ (by norm_num)
  constructor <;> omega

theorem atoi_range (a : List Char) : -(2 ^ 31) ≤ atoi a ∧ atoi a < 2 ^ 31 :=
  toInt32_range _

theorem toUint64_of_nonneg (x : Int) (h0 : 0 ≤ x) (h1 : x < 2 ^ 31) :
    toUint64 x = x.toNat := by
  unfold toUint64 UINT64_SIZE
  rw [Int.emod_eq_of_lt h0 (by push_cast; omega)]

theorem toUint64_of_neg (x : Int) (h0 : x < 0) (h1 : -(2 ^ 31) ≤ x) :
    toUint64 x = (2 ^ 64 + x).toNat := by
  unfold toUint64 UINT64_SIZE
  have h : x % ((2 ^ 64 : Nat) : Int) = 2 ^ 64 + x := by
    have e : x = (2 ^ 64 + x) + ((2 ^ 64 : Nat) : Int) * (-1) := by push_cast; ring
    conv_lhs => rw [e]
    rw [Int.add_mul_emod_self_left]
    exact Int.emod_eq_of_lt (by omega) (by push_cast; omega)
  rw [h]

/-- The value stored for `idle_time <seconds>` is at least `MIN_IDLE_TIME`; any other
outcome of the case leaves `max_idle_time` as it was. -/
theorem case_CMD_IDLE_TIME_min (w : World) (param1 : Option (List Char))
    (h : MIN_IDLE_TIME ≤ w.max_idle_time) :
    MIN_IDLE_TIME ≤ (case_CMD_IDLE_TIME w param1).max_idle_time := by
  cases param1 with
  | none => exact h
  | some a =>
    unfold case_CMD_IDLE_TIME
    by_cases hlt : toUint64 (atoi a) < MIN_IDLE_TIME
    · simpa [hlt, printMessageToCurrentTab] using h
    · simpa [hlt] using Nat.not_lt.mp hlt

/-- An argument that `atoi` reads as an integer from 15 on is stored as it is. -/
theorem case_CMD_IDLE_TIME_accepts (w : World) (a : List Char) (h : 15 ≤ atoi a) :
    case_CMD_IDLE_TIME w (some a) = { w with max_idle_time := (atoi a).toNat } := by
  have hr := atoi_range a
  have hu := toUint64_of_nonneg (atoi a) (by omega) hr.2
  have hge : ¬ (atoi a).toNat < MIN_IDLE_TIME := by unfold MIN_IDLE_TIME; omega
  simp [case_CMD_IDLE_TIME, hu, hge]

/-- An argument that `atoi` reads as an integer from 0 to 14 is rejected with a message. -/
theorem case_CMD_IDLE_TIME_rejects (w : World) (a : List Char) (h0 : 0 ≤ atoi a)
    (h : atoi a < 15) :
    case_CMD_IDLE_TIME w (some a)
      = printMessageToCurrentTab w "idle_time below minimum threshold" := by
  have hu := toUint64_of_nonneg (atoi a) h0 (by omega)
  have hlt : (atoi a).toNat < MIN_IDLE_TIME := by unfold MIN_IDLE_TIME; omega
  simp [case_CMD_IDLE_TIME, hu, hlt]

/-- An argument that `atoi` reads as a negative integer is stored, converted to `uint64`. -/
theorem case_CMD_IDLE_TIME_negative (w : World) (a : List Char) (h : atoi a < 0) :
    case_CMD_IDLE_TIME w (some a)
      = { w with max_idle_time := (2 ^ 64 + atoi a).toNat } := by
  have hr := atoi_range a
  have hu := toUint64_of_neg (atoi a) h hr.1
  have hge : ¬ (2 ^ 64 + atoi a).toNat < MIN_IDLE_TIME := by unfold MIN_IDLE_TIME; omega
  simp only [case_CMD_IDLE_TIME, hu, if_neg hge]

/-- A command parsed as `idle_time` runs the `CMD_IDLE_TIME` case on the given world. -/
theorem ts3plugin_processCommand_idle_time (w : World) (id : Nat) (command : String)
    (hc : (parse_command command).cmd = CMD_IDLE_TIME) :
    (ts3plugin_processCommand w id command).1
      = case_CMD_IDLE_TIME w (parse_command command).param1 := by
  simp only [ts3plugin_processCommand, hc]

/-- A command whose first token is not recognised prints the help lines and then runs the
`CMD_IDLE_TIME` case. -/
theorem ts3plugin_processCommand_none (w : World) (id : Nat) (command : String)
    (hc : (parse_command command).cmd = CMD_NONE) :
    (ts3plugin_processCommand w id command).1
      = case_CMD_IDLE_TIME (help w) (parse_command command).param1 := by
  simp only [ts3plugin_processCommand, hc]

theorem ts3plugin_processCommand_min (w : World) (id : Nat) (command : String)
    (h : MIN_IDLE_TIME ≤ w.max_idle_time) :
    MIN_IDLE_TIME ≤ (ts3plugin_processCommand w id command).1.max_idle_time := by
  simp only [ts3plugin_processCommand]
  split
  · exact case_CMD_IDLE_TIME_min (help w) _ h
  · exact case_CMD_IDLE_TIME_min w _ h
  · exact h

/-- The conversion to `unsigned int` at the call of `sleep` changes the duration once the
local reaches `2 ^ 32`: with the threshold `2 ^ 64 - 10` stored by `idle_time -10` and idle
time 0 the local is `2 ^ 64 - 5` and `sleep` receives `2 ^ 32 - 5`. Below `2 ^ 32` the
argument is the local itself. -/
theorem slept_seconds_narrowing :
    (idle_cycle (ts3plugin_processCommand (initial_world []) 1 "idle_time -10").1
      ACTIVE 0).sleep_time = 2 ^ 64 - 5 ∧
    slept_seconds (idle_cycle (ts3plugin_processCommand (initial_world []) 1
      "idle_time -10").1 ACTIVE 0) = 2 ^ 32 - 5 ∧
    (∀ c : Cycle, c.sleep_time < UINT_SIZE → slept_seconds c = c.sleep_time) :=
  ⟨by decide, by decide, fun _ h => Nat.mod_eq_of_lt h⟩

/-! ## The claims on the monitor and the gateway -/

/-- Claim C2: in one poll cycle `set_away_status(AWAY_ZZZ)` is called and `away_status` becomes
`IDLE` exactly when `away_status` was `ACTIVE` and the idle time is strictly above the
threshold; with an idle time at most the threshold the cycle makes no call or the one call
`set_away_status(AWAY_NONE)`. With threshold 600 and samples 0, ..., 0, 601 from `ACTIVE`,
no call is made during the zeros and the only call, `set_away_status(AWAY_ZZZ)`, is made on
the sample 601. -/
theorem idle_cycle_away_iff_active_and_above :
    (∀ (w : World) (s idle : Nat),
      ((idle_cycle w s idle).world.away_log = w.away_log ++ [AWAY_ZZZ]
          ∧ (idle_cycle w s idle).away_status = IDLE)
        ↔ (s = ACTIVE ∧ idle > w.max_idle_time)) ∧
    (∀ (w : World) (s idle : Nat), idle ≤ w.max_idle_time →
      (idle_cycle w s idle).world.away_log = w.away_log
        ∨ (idle_cycle w s idle).world.away_log = w.away_log ++ [AWAY_NONE]) ∧
    (∀ (w : World) (n : Nat), w.max_idle_time = 600 →
      (∀ k, k ≤ n → idle_loop_from w ACTIVE (List.replicate k 0) = (w, ACTIVE)) ∧
      (idle_loop_from w ACTIVE (List.replicate n 0 ++ [601])).1.away_log
        = w.away_log ++ [AWAY_ZZZ] ∧
      (idle_loop_from w ACTIVE (List.replicate n 0 ++ [601])).2 = IDLE) := by
  refine ⟨?_, ?_, ?_⟩
  · intro w s idle
    by_cases hi : w.max_idle_time < idle
    · by_cases hs : s = ACTIVE
      · subst hs
        rw [idle_cycle_above_active w idle hi]
        simp [set_away_status_log, hi]
      · rw [idle_cycle_above_other w s idle hi hs]
        simp [hs]
    · have hle : idle ≤ w.max_idle_time := Nat.not_lt.mp hi
      by_cases hs : s = IDLE
      · subst hs
        rw [idle_cycle_below_idle w idle hle]
        simp [set_away_status_log, hi]
      · rw [idle_cycle_below_other w s idle hle hs]
        simp [hi]
  · intro w s idle hle
    by_cases hs : s = IDLE
    · subst hs
      rw [idle_cycle_below_idle w idle hle]
      exact Or.inr (set_away_status_log w AWAY_NONE)
    · rw [idle_cycle_below_other w s idle hle hs]
      exact Or.inl rfl
  · intro w n hw
    have hzero : ∀ k, idle_loop_from w ACTIVE (List.replicate k 0) = (w, ACTIVE) := by
      intro k
      apply idle_loop_from_active_below
      intro y hy
      rw [List.eq_of_mem_replicate hy]
      exact Nat.zero_le _
    have hlast : idle_loop_from w ACTIVE (List.replicate n 0 ++ [601])
        = ((set_away_status w AWAY_ZZZ).1, IDLE) := by
      rw [idle_loop_from_append, hzero n]
      apply idle_loop_from_active_above
      intro y hy
      simp only [List.mem_singleton] at hy
      show w.max_idle_time < y
      omega
    exact ⟨fun k _ => hzero k, by rw [hlast]; rfl, by rw [hlast]⟩

/-- Witness of C2: the scenario with 120 zero samples before the sample 601. -/
theorem idle_cycle_away_iff_active_and_above_witness :
    (initial_world [{ away := AWAY_NONE, accepts_updates := true }]).max_idle_time = 600 ∧
    (idle_loop_from (initial_world [{ away := AWAY_NONE, accepts_updates := true }]) ACTIVE
        (List.replicate 120 0 ++ [601])).1.away_log = [] ++ [AWAY_ZZZ] :=
  ⟨rfl, (idle_cycle_away_iff_active_and_above.2.2
    (initial_world [{ away := AWAY_NONE, accepts_updates := true }]) 120 rfl).2.1⟩

/-- Claim C3: for every sample sequence `pre` run from any `away_status`, and every following run
`x :: run` of samples all above the (fixed) threshold: if the run begins with `away_status`
`ACTIVE`, the loop calls `set_away_status(AWAY_ZZZ)` once, in the first cycle of the run, and
makes no further call however long the run is; if the run begins with `IDLE`, it makes no
call. -/
theorem idle_loop_one_away_call_per_run (w : World) (s0 : Nat) (pre : List Nat) (x : Nat)
    (run : List Nat) (habove : ∀ y ∈ x :: run, w.max_idle_time < y) :
    ((idle_loop_from w s0 pre).2 = ACTIVE →
      (idle_loop_from w s0 (pre ++ [x])).1.away_log
        = (idle_loop_from w s0 pre).1.away_log ++ [AWAY_ZZZ] ∧
      (idle_loop_from w s0 (pre ++ x :: run)).1.away_log
        = (idle_loop_from w s0 pre).1.away_log ++ [AWAY_ZZZ] ∧
      (idle_loop_from w s0 (pre ++ x :: run)).2 = IDLE) ∧
    ((idle_loop_from w s0 pre).2 = IDLE →
      idle_loop_from w s0 (pre ++ x :: run) = idle_loop_from w s0 pre) := by
  have hmax := idle_loop_from_max w s0 pre
  have habove2 : ∀ y ∈ x :: run, (idle_loop_from w s0 pre).1.max_idle_time < y := by
    intro y hy; rw [hmax]; exact habove y hy
  have hx : ∀ y ∈ [x], (idle_loop_from w s0 pre).1.max_idle_time < y := by
    intro y hy
    exact habove2 y (by simp only [List.mem_singleton] at hy; simp [hy])
  constructor
  · intro hs
    rw [idle_loop_from_append w s0 pre [x], idle_loop_from_append w s0 pre (x :: run), hs,
      idle_loop_from_active_above _ x [] hx, idle_loop_from_active_above _ x run habove2]
    exact ⟨rfl, rfl, rfl⟩
  · intro hs
    rw [idle_loop_from_append w s0 pre (x :: run), hs,
      idle_loop_from_idle_above _ (x :: run) habove2, ← hs]

/-- Witness of C3: threshold 600, two quiet samples, then the run 601, 700, 900. -/
theorem idle_loop_one_away_call_per_run_witness :
    (∀ y ∈ 601 :: [700, 900], (initial_world []).max_idle_time < y) ∧
    (idle_loop_from (initial_world []) ACTIVE [0, 5]).2 = ACTIVE ∧
    (idle_loop_from (initial_world []) ACTIVE ([0, 5] ++ 601 :: [700, 900])).1.away_log
      = (idle_loop_from (initial_world []) ACTIVE [0, 5]).1.away_log ++ [AWAY_ZZZ] :=
  ⟨by decide, by decide,
    ((idle_loop_one_away_call_per_run (initial_world []) ACTIVE [0, 5] 601 [700, 900]
      (by decide)).1 (by decide)).2.1⟩

/-- Claim C4 as stated fails: with one connection reporting `AWAY_ZZZ` the loop starts with
`away_status` `IDLE`; the cycle with idle time 0 and threshold 600 then computes the sleep
duration 605, not the poll resolution 5, and switches `away_status` to `ACTIVE`. -/
theorem idle_cycle_sleep_from_away_below_threshold :
    (get_away_status (initial_world [{ away := AWAY_ZZZ, accepts_updates := true }])).toNat
      = IDLE ∧
    (idle_cycle (initial_world [{ away := AWAY_ZZZ, accepts_updates := true }])
      IDLE 0).sleep_time = 605 ∧
    (idle_cycle (initial_world [{ away := AWAY_ZZZ, accepts_updates := true }])
      IDLE 0).sleep_time ≠ ACTIVITY_CHECK_RESOLUTION ∧
    (idle_cycle (initial_world [{ away := AWAY_ZZZ, accepts_updates := true }])
      IDLE 0).away_status = ACTIVE := by
  decide

/-- Claim C4 as amended: in every poll cycle that starts with `away_status` `IDLE` and an
idle time above the threshold, the sleep duration is exactly `ACTIVITY_CHECK_RESOLUTION`,
which is 5, and `away_status` stays `IDLE`, however far the idle time is above the
threshold; more generally every cycle that leaves `away_status` at `IDLE` sleeps exactly
`ACTIVITY_CHECK_RESOLUTION`. -/
theorem idle_cycle_sleep_while_away (w : World) (s idle : Nat) :
    (s = IDLE → w.max_idle_time < idle →
      (idle_cycle w s idle).sleep_time = ACTIVITY_CHECK_RESOLUTION ∧
      (idle_cycle w s idle).away_status = IDLE) ∧
    ((idle_cycle w s idle).away_status = IDLE →
      (idle_cycle w s idle).sleep_time = ACTIVITY_CHECK_RESOLUTION) ∧
    ACTIVITY_CHECK_RESOLUTION = 5 := by
  refine ⟨?_, ?_, rfl⟩
  · intro hs hi
    subst hs
    rw [idle_cycle_above_other w IDLE idle hi (by decide)]
    exact ⟨rfl, rfl⟩
  · intro haway
    by_cases hi : w.max_idle_time < idle
    · by_cases hs : s = ACTIVE
      · subst hs; rw [idle_cycle_above_active w idle hi]
      · rw [idle_cycle_above_other w s idle hi hs]
    · have hle : idle ≤ w.max_idle_time := Nat.not_lt.mp hi
      by_cases hs : s = IDLE
      · subst hs
        rw [idle_cycle_below_idle w idle hle] at haway
        have hne : ACTIVE ≠ IDLE := by decide
        exact absurd haway hne
      · rw [idle_cycle_below_other w s idle hle hs] at haway
        exact absurd haway hs

/-- Witness of amended C4: threshold 600, away, idle time 100000. -/
theorem idle_cycle_sleep_while_away_witness :
    IDLE = IDLE ∧ (initial_world []).max_idle_time < 100000 ∧
    (idle_cycle (initial_world []) IDLE 100000).sleep_time = ACTIVITY_CHECK_RESOLUTION ∧
    (idle_cycle (initial_world []) IDLE 100000).away_status = IDLE :=
  ⟨rfl, by decide,
    (idle_cycle_sleep_while_away (initial_world []) IDLE 100000).1 rfl (by decide)⟩

/-- In a poll cycle with an idle time at most the threshold, the sleep duration is
`5 + (threshold - idle)` reduced modulo `2 ^ 64`, hence that number itself only when it is
below `2 ^ 64`; if `away_status` was `IDLE`, `set_away_status(AWAY_NONE)` is called once and
`away_status` becomes `ACTIVE`; if it was `ACTIVE`, no call is made and the world is
unchanged. -/
theorem idle_cycle_below_threshold (w : World) (s idle : Nat)
    (hle : idle ≤ w.max_idle_time) :
    (idle_cycle w s idle).sleep_time
        = (ACTIVITY_CHECK_RESOLUTION + (w.max_idle_time - idle)) % UINT64_SIZE ∧
    (ACTIVITY_CHECK_RESOLUTION + (w.max_idle_time - idle) < UINT64_SIZE →
      (idle_cycle w s idle).sleep_time = 5 + (w.max_idle_time - idle)) ∧
    (s = IDLE →
      (idle_cycle w s idle).world.away_log = w.away_log ++ [AWAY_NONE] ∧
      (idle_cycle w s idle).away_status = ACTIVE) ∧
    (s = ACTIVE →
      (idle_cycle w s idle).world = w ∧ (idle_cycle w s idle).away_status = ACTIVE) := by
  have hsleep : (idle_cycle w s idle).sleep_time
      = (ACTIVITY_CHECK_RESOLUTION + (w.max_idle_time - idle)) % UINT64_SIZE := by
    rw [← add64_sub64_of_le _ _ _ hle]
    by_cases hs : s = IDLE
    · subst hs; rw [idle_cycle_below_idle w idle hle]
    · rw [idle_cycle_below_other w s idle hle hs]
  refine ⟨hsleep, ?_, ?_, ?_⟩
  · intro hlt
    rw [hsleep, Nat.mod_eq_of_lt hlt]
    rfl
  · intro hs
    subst hs
    rw [idle_cycle_below_idle w idle hle]
    exact ⟨rfl, rfl⟩
  · intro hs
    subst hs
    rw [idle_cycle_below_other w ACTIVE idle hle (by decide)]
    exact ⟨rfl, rfl⟩

/-- Claim C5 (the code departs from it): the world after the command `idle_time -1` is
reachable and has the threshold `2 ^ 64 - 1`. In the poll cycle from `IDLE` with idle time
0, which is at most the threshold, `set_away_status(AWAY_NONE)` is called once and
`away_status` becomes `ACTIVE`, but the computed sleep duration is 4, whereas
`5 + (threshold - idle)` is `2 ^ 64 + 4`. -/
theorem sleep_time_differs_from_resolution_plus_remaining :
    Reachable (ts3plugin_processCommand (initial_world []) 1 "idle_time -1").1 ∧
    0 ≤ (ts3plugin_processCommand (initial_world []) 1 "idle_time -1").1.max_idle_time ∧
    (idle_cycle (ts3plugin_processCommand (initial_world []) 1 "idle_time -1").1
      IDLE 0).sleep_time = 4 ∧
    ACTIVITY_CHECK_RESOLUTION
      + ((ts3plugin_processCommand (initial_world []) 1 "idle_time -1").1.max_idle_time - 0)
      = 2 ^ 64 + 4 ∧
    (idle_cycle (ts3plugin_processCommand (initial_world []) 1 "idle_time -1").1
      IDLE 0).sleep_time
      ≠ ACTIVITY_CHECK_RESOLUTION
        + ((ts3plugin_processCommand (initial_world []) 1 "idle_time -1").1.max_idle_time - 0) ∧
    (idle_cycle (ts3plugin_processCommand (initial_world []) 1 "idle_time -1").1
      IDLE 0).world.away_log = [AWAY_NONE] ∧
    (idle_cycle (ts3plugin_processCommand (initial_world []) 1 "idle_time -1").1
      IDLE 0).away_status = ACTIVE :=
  ⟨Reachable.command _ 1 "idle_time -1" (Reachable.init []), by decide⟩

/-- Claim C6: for every list of connections, `get_away_status` returns `AWAY_NONE` (active) if at
least one connection reports `AWAY_NONE`, and returns `AWAY_ZZZ` (away) only if every
connection reports `AWAY_ZZZ`; both are equivalences. The connections
`[AWAY_ZZZ, AWAY_NONE, AWAY_ZZZ]` give `AWAY_NONE`. -/
theorem get_away_status_any_active :
    (∀ w : World,
      (get_away_status w = AWAY_NONE ↔ ∃ c ∈ w.servers, c.away = AWAY_NONE) ∧
      (get_away_status w = AWAY_ZZZ ↔ ∀ c ∈ w.servers, c.away = AWAY_ZZZ)) ∧
    get_away_status (initial_world
      [{ away := AWAY_ZZZ, accepts_updates := true },
       { away := AWAY_NONE, accepts_updates := true },
       { away := AWAY_ZZZ, accepts_updates := true }]) = AWAY_NONE :=
  ⟨fun w => ⟨get_away_status_loop_none w.servers, get_away_status_loop_zzz w.servers⟩,
    by decide⟩

/-! ## The claims on the threshold and the console command -/

/-- Claim C1 (the code departs from it): the command `idle_time -1` is parsed as `idle_time` with
argument `-1`, `atoi` gives the integer -1, which is below 15, and the command is not
rejected: no message is printed and the stored threshold becomes `2 ^ 64 - 1`. -/
theorem idle_time_negative_argument_is_stored :
    (parse_command "idle_time -1").cmd = CMD_IDLE_TIME ∧
    (parse_command "idle_time -1").param1 = some "-1".data ∧
    atoi "-1".data = -1 ∧
    (ts3plugin_processCommand (initial_world []) 1 "idle_time -1").1
      = { initial_world [] with max_idle_time := 2 ^ 64 - 1 } := by
  decide

/-- Claim C7 (the code departs from it): the command `foo 20`, whose first token is neither
`idle_time` nor `set_away`, prints the two help lines and then stores the threshold 20; the
empty command prints the two help lines and then a third message with the threshold. -/
theorem unrecognized_command_runs_idle_time_case :
    (parse_command "foo 20").cmd = CMD_NONE ∧
    (ts3plugin_processCommand (initial_world []) 1 "foo 20").1
      = { max_idle_time := 20, servers := [],
          tab := ["AFKPlugin help:",
            "/afk idle_time [seconds] #gets or sets the max idle time parameter"],
          away_log := [] } ∧
    (parse_command "").cmd = CMD_NONE ∧
    (ts3plugin_processCommand (initial_world []) 1 "").1
      = { max_idle_time := 600, servers := [],
          tab := ["AFKPlugin help:",
            "/afk idle_time [seconds] #gets or sets the max idle time parameter",
            "max idle time: 600\n"],
          away_log := [] } := by
  decide

/-- Claim C8: in every reachable world the stored threshold `max_idle_time` is at least
`MIN_IDLE_TIME`, which is 15: it is 600 at load time, every console command and every
iteration of the poll loop preserves the bound. -/
theorem max_idle_time_ge_min (w : World) (h : Reachable w) :
    MIN_IDLE_TIME ≤ w.max_idle_time ∧ MIN_IDLE_TIME = 15 := by
  refine ⟨?_, rfl⟩
  induction h with
  | init servers => show MIN_IDLE_TIME ≤ 600; decide
  | command w id command _ ih => exact ts3plugin_processCommand_min w id command ih
  | cycle w s idle _ ih => rw [idle_cycle_max]; exact ih
  | host w servers _ ih => exact ih

/-- Witness of C8: the world after the command `idle_time 20` and one poll cycle. -/
theorem max_idle_time_ge_min_witness :
    Reachable (idle_cycle (ts3plugin_processCommand (initial_world []) 1 "idle_time 20").1
      ACTIVE 3).world ∧
    MIN_IDLE_TIME ≤ (idle_cycle (ts3plugin_processCommand (initial_world []) 1
      "idle_time 20").1 ACTIVE 3).world.max_idle_time :=
  ⟨Reachable.cycle _ _ _ (Reachable.command _ _ _ (Reachable.init [])),
    (max_idle_time_ge_min _
      (Reachable.cycle _ ACTIVE 3
        (Reachable.command _ 1 "idle_time 20" (Reachable.init [])))).1⟩

/-- Claim C9 as stated fails: with one connection that reports `AWAY_NONE` and on which the host
refuses the update, a cycle from `ACTIVE` with idle time 601 above the threshold 600 sets
`away_status` to `IDLE` although the connection still reports `AWAY_NONE`, and the next
cycle, still above the threshold, does not call `set_away_status` again. -/
theorem idle_cycle_away_though_update_refused :
    (setClientSelfVariableAsInt { away := AWAY_NONE, accepts_updates := false } AWAY_ZZZ).2
      ≠ ERROR_ok ∧
    (idle_cycle (initial_world [{ away := AWAY_NONE, accepts_updates := false }])
      ACTIVE 601).away_status = IDLE ∧
    (idle_cycle (initial_world [{ away := AWAY_NONE, accepts_updates := false }])
      ACTIVE 601).away_status ≠ ACTIVE ∧
    get_away_status (idle_cycle (initial_world [{ away := AWAY_NONE, accepts_updates := false }])
      ACTIVE 601).world = AWAY_NONE ∧
    (idle_loop_from (initial_world [{ away := AWAY_NONE, accepts_updates := false }])
      ACTIVE [601, 602]).1.away_log = [AWAY_ZZZ] := by
  decide

/-- Claim C9 as amended: `set_away_status` returns 0 whatever the host answers, and a poll
cycle from `ACTIVE` with an idle time above the threshold calls `set_away_status(AWAY_ZZZ)`
once and sets `away_status` to `IDLE`, for every list of connections, accepting or refusing;
no later cycle of the same run above the threshold repeats the call. In the same way a
cycle from `IDLE` with an idle time at most the threshold calls
`set_away_status(AWAY_NONE)` once and sets `away_status` to `ACTIVE`. -/
theorem idle_cycle_transition_unconditional (w : World) (idle : Nat) :
    (∀ status, (set_away_status w status).2 = 0) ∧
    (w.max_idle_time < idle →
      (idle_cycle w ACTIVE idle).away_status = IDLE ∧
      (idle_cycle w ACTIVE idle).world.away_log = w.away_log ++ [AWAY_ZZZ] ∧
      ∀ run : List Nat, (∀ y ∈ run, w.max_idle_time < y) →
        (idle_loop_from w ACTIVE (idle :: run)).1.away_log = w.away_log ++ [AWAY_ZZZ]) ∧
    (idle ≤ w.max_idle_time →
      (idle_cycle w IDLE idle).away_status = ACTIVE ∧
      (idle_cycle w IDLE idle).world.away_log = w.away_log ++ [AWAY_NONE]) := by
  refine ⟨fun _ => rfl, ?_, ?_⟩
  · intro h
    rw [idle_cycle_above_active w idle h]
    refine ⟨rfl, rfl, ?_⟩
    intro run hrun
    have hall : ∀ y ∈ idle :: run, w.max_idle_time < y := by
      intro y hy
      rcases List.mem_cons.mp hy with hy | hy
      · rw [hy]; exact h
      · exact hrun y hy
    rw [idle_loop_from_active_above w idle run hall]
    rfl
  · intro h
    rw [idle_cycle_below_idle w idle h]
    exact ⟨rfl, rfl⟩

/-- Witness of amended C9: a refusing connection, threshold 600, idle time 601. -/
theorem idle_cycle_transition_unconditional_witness :
    (initial_world [{ away := AWAY_NONE, accepts_updates := false }]).max_idle_time < 601 ∧
    (idle_cycle (initial_world [{ away := AWAY_NONE, accepts_updates := false }])
      ACTIVE 601).away_status = IDLE :=
  ⟨by decide,
    ((idle_cycle_transition_unconditional
      (initial_world [{ away := AWAY_NONE, accepts_updates := false }]) 601).2.1
        (by decide)).1⟩

/-- Claim C10 (the code departs from it): after the command `idle_time -1` the stored threshold is
`2 ^ 64 - 1`, and a poll cycle with idle time 0 computes the sleep duration 4, below the
poll resolution 5; after `idle_time -5` the same cycle computes the sleep duration 0. -/
theorem sleep_time_wraps_after_negative_argument :
    (ts3plugin_processCommand (initial_world []) 1 "idle_time -1").1.max_idle_time
      = 2 ^ 64 - 1 ∧
    (idle_cycle (ts3plugin_processCommand (initial_world []) 1 "idle_time -1").1
      ACTIVE 0).sleep_time = 4 ∧
    (idle_cycle (ts3plugin_processCommand (initial_world []) 1 "idle_time -5").1
      ACTIVE 0).sleep_time = 0 ∧
    ACTIVITY_CHECK_RESOLUTION = 5 := by
  decide

end AFKPlugin
